import Mathlib

/-!
Verification of the request observability pipeline of the KodeKloud record
store web app (src/api/main.py): the Prometheus/OpenTelemetry metrics
middleware, the structured JSON logger, and the route/error-class helpers
it imports from api/telemetry.

The embedding is shallow: the middleware body is translated statement by
statement into a pure function from a request description (method, path,
handler outcome, span context, injected sink faults) to the full effect
trace it produces (gauge increments and decrements, counter increments,
histogram observations, emitted log records, final span state, and the
returned-or-raised result).
-/

namespace RecordsStore

/-! ## Basic data model -/

/-- A response object as seen by the middleware: a status code and the
content-length header value (defaulted to 0 when absent, as in
`response.headers.get("content-length", 0)`). -/
structure Response where
  statusCode : Int
  contentLength : Nat
deriving Repr, DecidableEq

/-- A Python exception value: its type name (`type(e).__name__`) and its
message (`str(e)`). -/
structure Exc where
  typeName : String
  msg : String
deriving Repr, DecidableEq

/-- Outcome of `await call_next(request)`: either a response or a raised
exception. -/
inductive HandlerOutcome where
  | success (r : Response)
  | raises (e : Exc)
deriving Repr, DecidableEq

/-- An OpenTelemetry span context: validity flag plus the numeric trace and
span identifiers, as read by `span.get_span_context()`. -/
structure SpanContext where
  isValid : Bool
  traceId : Nat
  spanId : Nat
deriving Repr, DecidableEq

/-! ## Hexadecimal formatting, Python `format(n, "032x")` -/

/-- Lowercase hexadecimal digit character for a value below 16. -/
def hexChar (d : Nat) : Char :=
  if d < 10 then Char.ofNat (48 + d) else Char.ofNat (87 + d)

/-- Big-endian hexadecimal digit list of `n`; empty for 0. The first
argument is recursion fuel; `fuel = n` always suffices. -/
def toHexAux : Nat → Nat → List Char
  | 0, _ => []
  | _ + 1, 0 => []
  | fuel + 1, n => toHexAux fuel (n / 16) ++ [hexChar (n % 16)]

/-- Python `format(n, "0" ++ toString w ++ "x")`: lowercase hex, zero-padded
on the left to at least `w` characters, never truncated. -/
def pyHex (n w : Nat) : String :=
  let ds := if n = 0 then ['0'] else toHexAux n n
  ⟨List.replicate (w - ds.length) '0' ++ ds⟩

/-- Line 169 of main.py: the trace id rendered for log correlation, `None`
when the span context is invalid. -/
def spanTraceIdStr (ctx : SpanContext) : Option String :=
  if ctx.isValid then some (pyHex ctx.traceId 32) else none

/-- Line 170 of main.py: the span id rendered for log correlation. -/
def spanSpanIdStr (ctx : SpanContext) : Option String :=
  if ctx.isValid then some (pyHex ctx.spanId 16) else none

/-! ## JSON field values and log records -/

/-- Exact rational floor, used to model Python `round(x, 2)`. -/
def ratFloor (q : Rat) : Int := Int.fdiv q.num q.den

/-- Python `round(x, 2)` on the nonnegative durations that occur here.
Python rounds binary floats half-to-even; on the abstract rational
durations of the model we take the standard half-up rounding, which agrees
except on exact half-hundredth boundaries that floats cannot hit. -/
def pyRound2 (x : Rat) : Rat := (ratFloor (x * 100 + 1/2) : Rat) / 100

/-- A scalar JSON value appearing in a log record or span attribute. -/
inductive FieldValue where
  | str (s : String)
  | int (n : Int)
  | rat (q : Rat)
  | nullV
deriving Repr, DecidableEq

/-- A JSON `null`-or-string value. -/
def optStr : Option String → FieldValue
  | none => FieldValue.nullV
  | some s => FieldValue.str s

/-- One emitted log record: the JSON object as an ordered key/value list.
Duplicate keys follow Python dict-literal semantics: the later entry wins. -/
abbrev LogRecord := List (String × FieldValue)

/-- Look a key up in a record, later occurrences overriding earlier ones,
as in the dict literal `\x7b"message": msg, ..., **kwargs\x7d`. -/
def recordGet (r : LogRecord) (k : String) : Option FieldValue :=
  (r.reverse.find? (fun p => p.1 = k)).map (fun p => p.2)

/-! ## StructuredLogger (main.py lines 48-83) -/

/-- Body shared by `StructuredLogger.info` and `StructuredLogger.error`:
build the JSON dict with message, level, trace/span correlation ids from
the currently active span, then the caller's keyword fields. -/
def StructuredLogger.log (level : String) (ctx : SpanContext) (msg : String)
    (kwargs : List (String × FieldValue)) : LogRecord :=
  [("message", FieldValue.str msg), ("level", FieldValue.str level),
   ("trace_id", optStr (spanTraceIdStr ctx)),
   ("span_id", optStr (spanSpanIdStr ctx))] ++ kwargs

/-- `StructuredLogger.info` from main.py. -/
def StructuredLogger.info (ctx : SpanContext) (msg : String)
    (kwargs : List (String × FieldValue)) : LogRecord :=
  StructuredLogger.log "INFO" ctx msg kwargs

/-- `StructuredLogger.error` from main.py. -/
def StructuredLogger.error (ctx : SpanContext) (msg : String)
    (kwargs : List (String × FieldValue)) : LogRecord :=
  StructuredLogger.log "ERROR" ctx msg kwargs

/-! ## Route normalizer and error classifier (api/telemetry) -/

/-- The fixed finite set of route labels the normalizer may produce. -/
def routeLabels : List String :=
  ["/", "/metrics", "/health", "/trace-test", "/error-test",
   "/records", "/records/{id}", "/other"]

/-- A path segment consisting solely of decimal digits (a numeric
resource identifier). -/
def isDigitSeg (s : String) : Bool := !s.data.isEmpty && s.data.all Char.isDigit

/-- Split a character list on the slash separator, keeping empty
segments, like Python `path.split("/")`. -/
def splitSlashAux : List Char → List Char → List (List Char)
  | [], acc => [acc.reverse]
  | c :: rest, acc =>
      if c = '/' then acc.reverse :: splitSlashAux rest []
      else splitSlashAux rest (c :: acc)

/-- The slash-separated segments of a path. -/
def pathSegs (p : String) : List String :=
  (splitSlashAux p.data []).map (fun l => ⟨l⟩)

/-- Modelled from the spec: `normalize_route` lives in api/telemetry.py,
which is not part of the sources; only its import and call sites are.
Spec section 4.1: a pure total function that collapses per-resource
identifier segments to a fixed placeholder and sends every unrecognized
path to a catch-all label, so the label space stays bounded. The known
static routes are the ones registered in main.py. -/
def normalize_route (path : String) : String :=
  if path = "/" then "/"
  else if path = "/metrics" then "/metrics"
  else if path = "/health" then "/health"
  else if path = "/trace-test" then "/trace-test"
  else if path = "/error-test" then "/error-test"
  else if path = "/records" then "/records"
  else
    match pathSegs path with
    | ["", "records", seg] => if isDigitSeg seg then "/records/{id}" else "/other"
    | _ => "/other"

/-- The fixed set of error classes the classifier may produce. -/
def errorClasses : List String :=
  ["client_error", "server_error", "success", "invalid"]

/-- Modelled from the spec: `get_error_class` lives in api/telemetry.py,
which is not part of the sources. Spec section 4.2: a deterministic total
partition of the status-code space into a small fixed set of coarse
classes, with an invalid fallback outside the legal HTTP range 100-599. -/
def get_error_class (status : Int) : String :=
  if 400 ≤ status ∧ status ≤ 499 then "client_error"
  else if 500 ≤ status ∧ status ≤ 599 then "server_error"
  else if 100 ≤ status ∧ status ≤ 399 then "success"
  else "invalid"

/-! ## Spans -/

/-- The status of a span: unset, or error with an optional description
(`trace.Status(trace.StatusCode.ERROR)` carries no description,
`trace.Status(trace.StatusCode.ERROR, str(e))` carries one). -/
inductive SpanStatus where
  | unset
  | error (desc : Option String)
deriving Repr, DecidableEq

/-- The per-request span opened by `tracer.start_as_current_span`: its
context, attributes in insertion order, status, and recorded exceptions. -/
structure Span where
  ctx : SpanContext
  attrs : List (String × FieldValue)
  status : SpanStatus
  recorded : List Exc
deriving Repr, DecidableEq

/-! ## The metrics middleware (main.py lines 107-237) -/

/-- Failure injection for the observability sinks invoked on the success
path of the try block. Each field set to `some f` means the corresponding
external call raises the exception `f` instead of completing; the sinks
invoked inside the except block are modelled as non-failing. -/
structure SinkFaults where
  spanAttr : Option Exc
  trafficInc : Option Exc
  histObserve : Option Exc
  infoLog : Option Exc
  errInc : Option Exc
  errLog : Option Exc
deriving Repr, DecidableEq

/-- All sinks operate normally. -/
def noFaults : SinkFaults :=
  { spanAttr := none, trafficInc := none, histObserve := none,
    infoLog := none, errInc := none, errLog := none }

/-- The exception of the first observability sink that raises on the
success path, in the program order of the try block: span attributes,
traffic counter, histogram, info log, then — only when the status code is
at least 400, since those sinks run conditionally — error counter and
error log. `none` when no sink that runs raises. -/
def firstFault (fs : SinkFaults) (status : Int) : Option Exc :=
  match fs.spanAttr with
  | some f => some f
  | none =>
    match fs.trafficInc with
    | some f => some f
    | none =>
      match fs.histObserve with
      | some f => some f
      | none =>
        match fs.infoLog with
        | some f => some f
        | none =>
          if 400 ≤ status then
            match fs.errInc with
            | some f => some f
            | none => fs.errLog
          else none

instance : DecidableEq (Except Exc Response) := fun x y =>
  match x, y with
  | Except.ok a, Except.ok b =>
      if h : a = b then isTrue (by rw [h]) else isFalse (by simp [h])
  | Except.error a, Except.error b =>
      if h : a = b then isTrue (by rw [h]) else isFalse (by simp [h])
  | Except.ok _, Except.error _ => isFalse (by simp)
  | Except.error _, Except.ok _ => isFalse (by simp)

/-- One request as the middleware sees it: the request descriptor fields,
the downstream handler's outcome, the measured duration
(`time.time() - start_time`), the span context of the opened span, and the
injected sink faults. -/
structure MWInput where
  method : String
  path : String
  urlStr : String
  scheme : String
  host : String
  outcome : HandlerOutcome
  duration : Rat
  spanCtx : SpanContext
  faults : SinkFaults
deriving Repr, DecidableEq

/-- The complete effect trace of one middleware execution. -/
structure MWResult where
  result : Except Exc Response
  gaugeIncs : Nat
  gaugeDecs : Nat
  trafficIncs : List (String × String × Int)
  histObs : List (String × String × Rat)
  errIncs : List (String × String × String)
  appErrIncs : List (String × String)
  logs : List LogRecord
  span : Span
deriving Repr, DecidableEq

/-- The `request_processed` info log emitted at main.py lines 173-182. -/
def requestLog (ctx : SpanContext) (method route : String) (status : Int)
    (duration : Rat) : LogRecord :=
  StructuredLogger.info ctx "request_processed"
    [("method", FieldValue.str method), ("route", FieldValue.str route),
     ("status_code", FieldValue.int status),
     ("duration_seconds", FieldValue.rat duration),
     ("duration_ms", FieldValue.rat (pyRound2 (duration * 1000))),
     ("trace_id", optStr (spanTraceIdStr ctx)),
     ("span_id", optStr (spanSpanIdStr ctx))]

/-- The `http_error` error log emitted at main.py lines 193-202. -/
def httpErrorLog (ctx : SpanContext) (method route : String) (status : Int)
    (duration : Rat) : LogRecord :=
  StructuredLogger.error ctx "http_error"
    [("method", FieldValue.str method), ("route", FieldValue.str route),
     ("status_code", FieldValue.int status),
     ("error_class", FieldValue.str (get_error_class status)),
     ("duration_ms", FieldValue.rat (pyRound2 (duration * 1000))),
     ("trace_id", optStr (spanTraceIdStr ctx)),
     ("span_id", optStr (spanSpanIdStr ctx))]

/-- The `request_failed` error log emitted at main.py lines 222-230. -/
def requestFailedLog (ctx : SpanContext) (method route : String)
    (e : Exc) : LogRecord :=
  StructuredLogger.error ctx "request_failed"
    [("method", FieldValue.str method), ("route", FieldValue.str route),
     ("error", FieldValue.str e.msg),
     ("error_type", FieldValue.str e.typeName),
     ("trace_id", optStr (spanTraceIdStr ctx)),
     ("span_id", optStr (spanSpanIdStr ctx))]

/-- Partial effect trace of the try block (main.py lines 139-204):
either it reaches `return response` or it is exited by an exception (the
handler's, or one raised by a faulted sink call). -/
structure TryOut where
  result : Except Exc Response
  span : Span
  trafficIncs : List (String × String × Int)
  histObs : List (String × String × Rat)
  errIncs : List (String × String × String)
  logs : List LogRecord
deriving Repr, DecidableEq

/-- The try block of the middleware, statement by statement. A faulted
sink call raises before performing its effect, so everything after it in
program order is skipped. -/
def tryBlock (inp : MWInput) (method route : String) (span0 : Span) :
    TryOut :=
  match inp.outcome with
  | HandlerOutcome.raises e =>
      { result := Except.error e, span := span0, trafficIncs := [],
        histObs := [], errIncs := [], logs := [] }
  | HandlerOutcome.success response =>
      let status := response.statusCode
      match inp.faults.spanAttr with
      | some f =>
          { result := Except.error f, span := span0, trafficIncs := [],
            histObs := [], errIncs := [], logs := [] }
      | none =>
          let span1 : Span :=
            { span0 with attrs := span0.attrs ++
                [("http.status_code", FieldValue.int status),
                 ("http.response.size",
                  FieldValue.int (response.contentLength : Int))] }
          let span2 : Span :=
            if 400 ≤ status then { span1 with status := SpanStatus.error none }
            else span1
          match inp.faults.trafficInc with
          | some f =>
              { result := Except.error f, span := span2, trafficIncs := [],
                histObs := [], errIncs := [], logs := [] }
          | none =>
              let traffic := [(method, route, status)]
              match inp.faults.histObserve with
              | some f =>
                  { result := Except.error f, span := span2,
                    trafficIncs := traffic, histObs := [], errIncs := [],
                    logs := [] }
              | none =>
                  let hist := [(method, route, inp.duration)]
                  match inp.faults.infoLog with
                  | some f =>
                      { result := Except.error f, span := span2,
                        trafficIncs := traffic, histObs := hist,
                        errIncs := [], logs := [] }
                  | none =>
                      let infoRec :=
                        requestLog inp.spanCtx method route status inp.duration
                      if 400 ≤ status then
                        match inp.faults.errInc with
                        | some f =>
                            { result := Except.error f, span := span2,
                              trafficIncs := traffic, histObs := hist,
                              errIncs := [], logs := [infoRec] }
                        | none =>
                            let errs :=
                              [(method, route, get_error_class status)]
                            match inp.faults.errLog with
                            | some f =>
                                { result := Except.error f, span := span2,
                                  trafficIncs := traffic, histObs := hist,
                                  errIncs := errs, logs := [infoRec] }
                            | none =>
                                { result := Except.ok response, span := span2,
                                  trafficIncs := traffic, histObs := hist,
                                  errIncs := errs,
                                  logs := [infoRec,
                                    httpErrorLog inp.spanCtx method route
                                      status inp.duration] }
                      else
                        { result := Except.ok response, span := span2,
                          trafficIncs := traffic, histObs := hist,
                          errIncs := [], logs := [infoRec] }

/-- The whole middleware: gauge increment, span opening with request
attributes, the try block, the except block (record the exception, count
it as an application error, log, re-raise), and the finally block
(unconditional gauge decrement). -/
def metrics_middleware (inp : MWInput) : MWResult :=
  let method := inp.method
  let route := normalize_route inp.path
  let span0 : Span :=
    { ctx := inp.spanCtx
      attrs := [("http.method", FieldValue.str method),
                ("http.url", FieldValue.str inp.urlStr),
                ("http.route", FieldValue.str route),
                ("http.scheme", FieldValue.str inp.scheme),
                ("http.host", FieldValue.str inp.host)]
      status := SpanStatus.unset
      recorded := [] }
  let tr := tryBlock inp method route span0
  match tr.result with
  | Except.ok response =>
      { result := Except.ok response, gaugeIncs := 1, gaugeDecs := 1,
        trafficIncs := tr.trafficIncs, histObs := tr.histObs,
        errIncs := tr.errIncs, appErrIncs := [], logs := tr.logs,
        span := tr.span }
  | Except.error e =>
      { result := Except.error e, gaugeIncs := 1, gaugeDecs := 1,
        trafficIncs := tr.trafficIncs, histObs := tr.histObs,
        errIncs := tr.errIncs,
        appErrIncs := [(e.typeName, "middleware")],
        logs := tr.logs ++ [requestFailedLog inp.spanCtx method route e],
        span := { tr.span with
                    status := SpanStatus.error (some e.msg),
                    recorded := tr.span.recorded ++ [e] } }

/-! ## Concrete example inputs used by witnesses and counterexamples -/

/-- A lowercase hexadecimal character. -/
def isHexLower (c : Char) : Bool :=
  ('0' ≤ c && c ≤ '9') || ('a' ≤ c && c ≤ 'f')

/-- A valid span context with small identifiers. -/
def exSpanCtx : SpanContext := { isValid := true, traceId := 1, spanId := 2 }

/-- A concrete GET request to /health with the given handler outcome and
sink faults. -/
def exInp (o : HandlerOutcome) (fs : SinkFaults) : MWInput :=
  { method := "GET", path := "/health", urlStr := "http://testserver/health",
    scheme := "http", host := "testserver", outcome := o, duration := 1/10,
    spanCtx := exSpanCtx, faults := fs }

/-- The exception of the spec's exception-path example. -/
def exExc : Exc := { typeName := "ValueError", msg := "boom" }

/-- An exception raised by a faulted metrics sink. -/
def exSinkExc : Exc := { typeName := "ValueError", msg := "label mismatch" }

/-- Sink faults where the traffic-counter increment raises. -/
def faultedTraffic : SinkFaults := { noFaults with trafficInc := some exSinkExc }

/-- The exact keyword fields the middleware passes to
`structured_logger.info` at main.py lines 173-182, at concrete values:
note that trace_id and span_id are passed as caller fields carrying the
very values the logger itself computes from the active span. -/
def exMwKwargs : List (String × FieldValue) :=
  [("method", FieldValue.str "GET"), ("route", FieldValue.str "/health"),
   ("status_code", FieldValue.int 200),
   ("duration_seconds", FieldValue.rat (1/10)),
   ("duration_ms", FieldValue.rat (pyRound2 ((1/10) * 1000))),
   ("trace_id", optStr (spanTraceIdStr exSpanCtx)),
   ("span_id", optStr (spanSpanIdStr exSpanCtx))]

/-! ## Helper lemmas -/

lemma toHexAux_succ (fuel n : Nat) (h : n ≠ 0) :
    toHexAux (fuel + 1) n = toHexAux fuel (n / 16) ++ [hexChar (n % 16)] := by
  cases n with
  | zero => exact absurd rfl h
  | succ m => rfl

lemma toHexAux_length_le :
    ∀ (fuel k n : Nat), n < 16 ^ k → (toHexAux fuel n).length ≤ k := by
  intro fuel
  induction fuel with
  | zero => intro k n _; simp [toHexAux]
  | succ fuel ih =>
    intro k n h
    cases n with
    | zero => simp [toHexAux]
    | succ m =>
      cases k with
      | zero => simp at h
      | succ k =>
        rw [toHexAux_succ _ _ (Nat.succ_ne_zero m)]
        simp only [List.length_append, List.length_cons, List.length_nil]
        have hdiv : (m + 1) / 16 < 16 ^ k := by
          apply Nat.div_lt_of_lt_mul
          calc m + 1 < 16 ^ (k + 1) := h
            _ = 16 * 16 ^ k := by ring
        have := ih k ((m + 1) / 16) hdiv
        simp only [Nat.succ_eq_add_one] at this ⊢
        omega

lemma hexChar_hex (d : Nat) (h : d < 16) : isHexLower (hexChar d) = true := by
  revert h
  revert d
  decide

lemma toHexAux_all_hex :
    ∀ (fuel n : Nat), ∀ c ∈ toHexAux fuel n, isHexLower c = true := by
  intro fuel
  induction fuel with
  | zero => intro n c hc; simp [toHexAux] at hc
  | succ fuel ih =>
    intro n c hc
    cases n with
    | zero => simp [toHexAux] at hc
    | succ m =>
      rw [toHexAux_succ _ _ (Nat.succ_ne_zero m)] at hc
      rcases List.mem_append.mp hc with h | h
      · exact ih _ _ h
      · simp at h
        subst h
        exact hexChar_hex _ (Nat.mod_lt _ (by norm_num))

lemma pyHex_length (n w : Nat) (hw : 0 < w) (h : n < 16 ^ w) :
    (pyHex n w).length = w := by
  unfold pyHex
  by_cases hn : n = 0
  · subst hn
    simp [String.length]
    omega
  · have hlen := toHexAux_length_le n w n h
    simp [hn, String.length]
    omega

lemma pyHex_all_hex (n w : Nat) :
    ((pyHex n w).data.all isHexLower) = true := by
  unfold pyHex
  rw [List.all_eq_true]
  intro c hc
  simp only [String.data] at hc
  rcases List.mem_append.mp hc with h | h
  · have := List.eq_of_mem_replicate h
    subst this
    decide
  · by_cases hn : n = 0
    · simp [hn] at h
      subst h
      decide
    · simp only [hn, if_false] at h
      exact toHexAux_all_hex _ _ _ h

lemma recordGet_append_agree (base kwargs : LogRecord) (k : String)
    (v : FieldValue) (hbase : recordGet base k = some v)
    (h : ∀ p ∈ kwargs, p.1 = k → p.2 = v) :
    recordGet (base ++ kwargs) k = some v := by
  unfold recordGet at hbase ⊢
  rw [List.reverse_append, List.find?_append]
  cases hfind : kwargs.reverse.find? (fun p => p.1 = k) with
  | none => simpa [hfind] using hbase
  | some q =>
      have hq : q.1 = k := by simpa using List.find?_some hfind
      have hmem : q ∈ kwargs :=
        List.mem_reverse.mp (List.mem_of_find?_eq_some hfind)
      have : q.2 = v := h q hmem hq
      simp [hfind, this]

lemma requestLog_level (ctx : SpanContext) (m ro : String) (st : Int)
    (d : Rat) :
    recordGet (requestLog ctx m ro st d) "level" =
      some (FieldValue.str "INFO") := rfl

lemma httpErrorLog_level (ctx : SpanContext) (m ro : String) (st : Int)
    (d : Rat) :
    recordGet (httpErrorLog ctx m ro st d) "level" =
      some (FieldValue.str "ERROR") := rfl

/-! ## Claims -/

/-- Claim C1: for every request entering the metrics middleware, the
in-flight gauge `active_connections` is incremented exactly once and
decremented exactly once — so it returns to its pre-request value —
regardless of outcome: success response, response with status at least
400, handler exception, and even a raising observability sink. -/
theorem gauge_inc_dec_balanced (inp : MWInput) :
    (metrics_middleware inp).gaugeIncs = 1 ∧
    (metrics_middleware inp).gaugeDecs = 1 ∧
    (metrics_middleware inp).gaugeIncs = (metrics_middleware inp).gaugeDecs := by
  refine ⟨?_, ?_, ?_⟩ <;> (simp only [metrics_middleware]; split <;> simp)

/-- Claim C1 witness: the balance evaluated at a concrete request whose
handler raises. -/
theorem gauge_inc_dec_balanced_witness :
    (metrics_middleware (exInp (HandlerOutcome.raises exExc) noFaults)).gaugeIncs = 1 ∧
    (metrics_middleware (exInp (HandlerOutcome.raises exExc) noFaults)).gaugeDecs = 1 ∧
    (metrics_middleware (exInp (HandlerOutcome.raises exExc) noFaults)).gaugeIncs =
      (metrics_middleware (exInp (HandlerOutcome.raises exExc) noFaults)).gaugeDecs :=
  gauge_inc_dec_balanced (exInp (HandlerOutcome.raises exExc) noFaults)

/-- Claim C2: when the downstream handler raises, the middleware sets the
span status to error with the exception's message, records the exception
on the span, increments the application-error counter exactly once with
labels error_type = the exception's type name and component =
"middleware", emits one error-level log carrying the exception type and
message, and re-raises the same exception unchanged — it never converts
the exception into a response. -/
theorem handler_exception_observed_and_reraised (inp : MWInput) (e : Exc)
    (ho : inp.outcome = HandlerOutcome.raises e) :
    (metrics_middleware inp).result = Except.error e ∧
    (metrics_middleware inp).span.status = SpanStatus.error (some e.msg) ∧
    (metrics_middleware inp).span.recorded = [e] ∧
    (metrics_middleware inp).appErrIncs = [(e.typeName, "middleware")] ∧
    (metrics_middleware inp).logs =
      [requestFailedLog inp.spanCtx inp.method (normalize_route inp.path) e] ∧
    recordGet (requestFailedLog inp.spanCtx inp.method (normalize_route inp.path) e)
      "level" = some (FieldValue.str "ERROR") ∧
    recordGet (requestFailedLog inp.spanCtx inp.method (normalize_route inp.path) e)
      "error_type" = some (FieldValue.str e.typeName) ∧
    recordGet (requestFailedLog inp.spanCtx inp.method (normalize_route inp.path) e)
      "error" = some (FieldValue.str e.msg) ∧
    (metrics_middleware inp).gaugeDecs = 1 := by
  refine ⟨?_, ?_, ?_, ?_, ?_, rfl, rfl, rfl, ?_⟩ <;>
    simp [metrics_middleware, tryBlock, ho]

/-- Claim C2 witness: the exception path evaluated at a concrete request
whose handler raises `ValueError("boom")`. -/
theorem handler_exception_observed_and_reraised_witness :
    (metrics_middleware (exInp (HandlerOutcome.raises exExc) noFaults)).result =
      Except.error exExc ∧
    (metrics_middleware (exInp (HandlerOutcome.raises exExc) noFaults)).span.status =
      SpanStatus.error (some exExc.msg) ∧
    (metrics_middleware (exInp (HandlerOutcome.raises exExc) noFaults)).span.recorded =
      [exExc] ∧
    (metrics_middleware (exInp (HandlerOutcome.raises exExc) noFaults)).appErrIncs =
      [(exExc.typeName, "middleware")] ∧
    (metrics_middleware (exInp (HandlerOutcome.raises exExc) noFaults)).logs =
      [requestFailedLog exSpanCtx "GET" (normalize_route "/health") exExc] ∧
    recordGet (requestFailedLog exSpanCtx "GET" (normalize_route "/health") exExc)
      "level" = some (FieldValue.str "ERROR") ∧
    recordGet (requestFailedLog exSpanCtx "GET" (normalize_route "/health") exExc)
      "error_type" = some (FieldValue.str exExc.typeName) ∧
    recordGet (requestFailedLog exSpanCtx "GET" (normalize_route "/health") exExc)
      "error" = some (FieldValue.str exExc.msg) ∧
    (metrics_middleware (exInp (HandlerOutcome.raises exExc) noFaults)).gaugeDecs = 1 :=
  handler_exception_observed_and_reraised
    (exInp (HandlerOutcome.raises exExc) noFaults) exExc rfl

/-- Claim C10: when the downstream handler raises, the traffic counter,
the duration histogram, and the HTTP error counter are left unchanged —
only the application-error counter and the gauge are touched. -/
theorem exception_path_frame (inp : MWInput) (e : Exc)
    (ho : inp.outcome = HandlerOutcome.raises e) :
    (metrics_middleware inp).trafficIncs = [] ∧
    (metrics_middleware inp).histObs = [] ∧
    (metrics_middleware inp).errIncs = [] ∧
    (metrics_middleware inp).appErrIncs = [(e.typeName, "middleware")] ∧
    (metrics_middleware inp).gaugeIncs = 1 ∧
    (metrics_middleware inp).gaugeDecs = 1 := by
  refine ⟨?_, ?_, ?_, ?_, ?_, ?_⟩ <;> simp [metrics_middleware, tryBlock, ho]

/-- Claim C10 witness: the frame condition evaluated at a concrete raising
request. -/
theorem exception_path_frame_witness :
    (metrics_middleware (exInp (HandlerOutcome.raises exExc) noFaults)).trafficIncs = [] ∧
    (metrics_middleware (exInp (HandlerOutcome.raises exExc) noFaults)).histObs = [] ∧
    (metrics_middleware (exInp (HandlerOutcome.raises exExc) noFaults)).errIncs = [] ∧
    (metrics_middleware (exInp (HandlerOutcome.raises exExc) noFaults)).appErrIncs =
      [(exExc.typeName, "middleware")] ∧
    (metrics_middleware (exInp (HandlerOutcome.raises exExc) noFaults)).gaugeIncs = 1 ∧
    (metrics_middleware (exInp (HandlerOutcome.raises exExc) noFaults)).gaugeDecs = 1 :=
  exception_path_frame (exInp (HandlerOutcome.raises exExc) noFaults) exExc rfl

/-- Claim C5: for a handler response with status code 200 the middleware
performs exactly one traffic-counter increment labeled (method, route,
status_code), exactly one duration-histogram observation labeled (method,
route), and no HTTP-error-counter or application-error-counter
increments. -/
theorem success200_single_observations (inp : MWInput) (r : Response)
    (hf : inp.faults = noFaults) (ho : inp.outcome = HandlerOutcome.success r)
    (hs : r.statusCode = 200) :
    (metrics_middleware inp).trafficIncs =
      [(inp.method, normalize_route inp.path, 200)] ∧
    (metrics_middleware inp).histObs =
      [(inp.method, normalize_route inp.path, inp.duration)] ∧
    (metrics_middleware inp).errIncs = [] ∧
    (metrics_middleware inp).appErrIncs = [] := by
  refine ⟨?_, ?_, ?_, ?_⟩ <;>
    simp [metrics_middleware, tryBlock, ho, hf, noFaults, hs]

/-- Claim C5 witness: the single observations evaluated at a concrete 200
response. -/
theorem success200_single_observations_witness :
    (metrics_middleware (exInp
        (HandlerOutcome.success { statusCode := 200, contentLength := 0 })
        noFaults)).trafficIncs = [("GET", normalize_route "/health", 200)] ∧
    (metrics_middleware (exInp
        (HandlerOutcome.success { statusCode := 200, contentLength := 0 })
        noFaults)).histObs = [("GET", normalize_route "/health", 1/10)] ∧
    (metrics_middleware (exInp
        (HandlerOutcome.success { statusCode := 200, contentLength := 0 })
        noFaults)).errIncs = [] ∧
    (metrics_middleware (exInp
        (HandlerOutcome.success { statusCode := 200, contentLength := 0 })
        noFaults)).appErrIncs = [] :=
  success200_single_observations
    (exInp (HandlerOutcome.success { statusCode := 200, contentLength := 0 })
      noFaults)
    { statusCode := 200, contentLength := 0 } rfl rfl rfl

/-- Claim C6: for a handler response with status code 404 the middleware
sets the span status to error, performs exactly one traffic-counter
increment, exactly one error-counter increment labeled with the class the
error classifier returns for 404 (the coarse class, not the raw status
code), and emits exactly one error-level log record whose trace_id field
is a non-null hex string whenever tracing is active. -/
theorem status404_error_observations (inp : MWInput) (r : Response)
    (hf : inp.faults = noFaults) (ho : inp.outcome = HandlerOutcome.success r)
    (hs : r.statusCode = 404) :
    (metrics_middleware inp).span.status = SpanStatus.error none ∧
    (metrics_middleware inp).trafficIncs =
      [(inp.method, normalize_route inp.path, 404)] ∧
    (metrics_middleware inp).errIncs =
      [(inp.method, normalize_route inp.path, get_error_class 404)] ∧
    get_error_class 404 = "client_error" ∧
    (metrics_middleware inp).logs =
      [requestLog inp.spanCtx inp.method (normalize_route inp.path) 404
        inp.duration,
       httpErrorLog inp.spanCtx inp.method (normalize_route inp.path) 404
        inp.duration] ∧
    (metrics_middleware inp).logs.countP
      (fun rec => decide (recordGet rec "level" =
        some (FieldValue.str "ERROR"))) = 1 ∧
    (inp.spanCtx.isValid = true →
      recordGet (httpErrorLog inp.spanCtx inp.method (normalize_route inp.path)
          404 inp.duration) "trace_id" =
        some (FieldValue.str (pyHex inp.spanCtx.traceId 32))) := by
  have hlogs : (metrics_middleware inp).logs =
      [requestLog inp.spanCtx inp.method (normalize_route inp.path) 404
        inp.duration,
       httpErrorLog inp.spanCtx inp.method (normalize_route inp.path) 404
        inp.duration] := by
    simp [metrics_middleware, tryBlock, ho, hf, noFaults, hs]
  refine ⟨?_, ?_, ?_, rfl, hlogs, ?_, ?_⟩
  · simp [metrics_middleware, tryBlock, ho, hf, noFaults, hs]
  · simp [metrics_middleware, tryBlock, ho, hf, noFaults, hs]
  · simp [metrics_middleware, tryBlock, ho, hf, noFaults, hs]
  · rw [hlogs]
    simp [List.countP_cons, requestLog_level, httpErrorLog_level]
  · intro hv
    unfold httpErrorLog StructuredLogger.error StructuredLogger.log
    simp [recordGet, spanTraceIdStr, hv, optStr]

/-- Claim C6 witness: the 404 observations evaluated at a concrete request
with an active (valid) span context. -/
theorem status404_error_observations_witness :
    (metrics_middleware (exInp
        (HandlerOutcome.success { statusCode := 404, contentLength := 0 })
        noFaults)).span.status = SpanStatus.error none ∧
    (metrics_middleware (exInp
        (HandlerOutcome.success { statusCode := 404, contentLength := 0 })
        noFaults)).trafficIncs = [("GET", normalize_route "/health", 404)] ∧
    (metrics_middleware (exInp
        (HandlerOutcome.success { statusCode := 404, contentLength := 0 })
        noFaults)).errIncs =
      [("GET", normalize_route "/health", get_error_class 404)] ∧
    get_error_class 404 = "client_error" ∧
    (metrics_middleware (exInp
        (HandlerOutcome.success { statusCode := 404, contentLength := 0 })
        noFaults)).logs =
      [requestLog exSpanCtx "GET" (normalize_route "/health") 404 (1/10),
       httpErrorLog exSpanCtx "GET" (normalize_route "/health") 404 (1/10)] ∧
    (metrics_middleware (exInp
        (HandlerOutcome.success { statusCode := 404, contentLength := 0 })
        noFaults)).logs.countP
      (fun rec => decide (recordGet rec "level" =
        some (FieldValue.str "ERROR"))) = 1 ∧
    (exSpanCtx.isValid = true →
      recordGet (httpErrorLog exSpanCtx "GET" (normalize_route "/health") 404
          (1/10)) "trace_id" =
        some (FieldValue.str (pyHex exSpanCtx.traceId 32))) :=
  status404_error_observations
    (exInp (HandlerOutcome.success { statusCode := 404, contentLength := 0 })
      noFaults)
    { statusCode := 404, contentLength := 0 } rfl rfl rfl

/-- Claim C4 counterexample: for a concrete 404 response the middleware
still emits the info-level `request_processed` completion log (exactly one
info-level record appears), so the info log is not emitted only when the
status code is below 400. -/
theorem info_log_on_error_status_cex :
    ((400 : Int) ≤ 404) = True ∧
    (metrics_middleware
        (exInp (HandlerOutcome.success { statusCode := 404, contentLength := 0 })
          noFaults)).logs.countP
      (fun rec => decide (recordGet rec "level" =
        some (FieldValue.str "INFO"))) = 1 := by
  decide

/-- Claim C4 as amended: for every response the middleware emits the
info-level completion log with the duration both in seconds and in
milliseconds, unconditionally; when the status code is at least 400 it
additionally emits an error-level log with method, route, status code,
error class, and duration. The info log is not restricted to status codes
below 400. -/
theorem completion_logging_behavior (inp : MWInput) (r : Response)
    (hf : inp.faults = noFaults) (ho : inp.outcome = HandlerOutcome.success r) :
    (metrics_middleware inp).logs =
      (if 400 ≤ r.statusCode then
        [requestLog inp.spanCtx inp.method (normalize_route inp.path)
          r.statusCode inp.duration,
         httpErrorLog inp.spanCtx inp.method (normalize_route inp.path)
          r.statusCode inp.duration]
       else
        [requestLog inp.spanCtx inp.method (normalize_route inp.path)
          r.statusCode inp.duration]) ∧
    recordGet (requestLog inp.spanCtx inp.method (normalize_route inp.path)
        r.statusCode inp.duration) "level" = some (FieldValue.str "INFO") ∧
    recordGet (requestLog inp.spanCtx inp.method (normalize_route inp.path)
        r.statusCode inp.duration) "duration_seconds" =
      some (FieldValue.rat inp.duration) ∧
    recordGet (requestLog inp.spanCtx inp.method (normalize_route inp.path)
        r.statusCode inp.duration) "duration_ms" =
      some (FieldValue.rat (pyRound2 (inp.duration * 1000))) ∧
    recordGet (httpErrorLog inp.spanCtx inp.method (normalize_route inp.path)
        r.statusCode inp.duration) "level" = some (FieldValue.str "ERROR") ∧
    recordGet (httpErrorLog inp.spanCtx inp.method (normalize_route inp.path)
        r.statusCode inp.duration) "method" =
      some (FieldValue.str inp.method) ∧
    recordGet (httpErrorLog inp.spanCtx inp.method (normalize_route inp.path)
        r.statusCode inp.duration) "route" =
      some (FieldValue.str (normalize_route inp.path)) ∧
    recordGet (httpErrorLog inp.spanCtx inp.method (normalize_route inp.path)
        r.statusCode inp.duration) "status_code" =
      some (FieldValue.int r.statusCode) ∧
    recordGet (httpErrorLog inp.spanCtx inp.method (normalize_route inp.path)
        r.statusCode inp.duration) "error_class" =
      some (FieldValue.str (get_error_class r.statusCode)) ∧
    recordGet (httpErrorLog inp.spanCtx inp.method (normalize_route inp.path)
        r.statusCode inp.duration) "duration_ms" =
      some (FieldValue.rat (pyRound2 (inp.duration * 1000))) := by
  refine ⟨?_, rfl, rfl, rfl, rfl, rfl, rfl, rfl, rfl, rfl⟩
  by_cases h4 : 400 ≤ r.statusCode <;>
    simp [metrics_middleware, tryBlock, ho, hf, noFaults, h4]

/-- Claim C4 amended witness: the logging behavior evaluated at a concrete
500 response. -/
theorem completion_logging_behavior_witness :
    (metrics_middleware (exInp
        (HandlerOutcome.success { statusCode := 500, contentLength := 0 })
        noFaults)).logs =
      (if 400 ≤ (500 : Int) then
        [requestLog exSpanCtx "GET" (normalize_route "/health") 500 (1/10),
         httpErrorLog exSpanCtx "GET" (normalize_route "/health") 500 (1/10)]
       else
        [requestLog exSpanCtx "GET" (normalize_route "/health") 500 (1/10)]) ∧
    recordGet (requestLog exSpanCtx "GET" (normalize_route "/health") 500
        (1/10)) "level" = some (FieldValue.str "INFO") ∧
    recordGet (requestLog exSpanCtx "GET" (normalize_route "/health") 500
        (1/10)) "duration_seconds" = some (FieldValue.rat (1/10)) ∧
    recordGet (requestLog exSpanCtx "GET" (normalize_route "/health") 500
        (1/10)) "duration_ms" =
      some (FieldValue.rat (pyRound2 ((1/10) * 1000))) ∧
    recordGet (httpErrorLog exSpanCtx "GET" (normalize_route "/health") 500
        (1/10)) "level" = some (FieldValue.str "ERROR") ∧
    recordGet (httpErrorLog exSpanCtx "GET" (normalize_route "/health") 500
        (1/10)) "method" = some (FieldValue.str "GET") ∧
    recordGet (httpErrorLog exSpanCtx "GET" (normalize_route "/health") 500
        (1/10)) "route" = some (FieldValue.str (normalize_route "/health")) ∧
    recordGet (httpErrorLog exSpanCtx "GET" (normalize_route "/health") 500
        (1/10)) "status_code" = some (FieldValue.int 500) ∧
    recordGet (httpErrorLog exSpanCtx "GET" (normalize_route "/health") 500
        (1/10)) "error_class" =
      some (FieldValue.str (get_error_class 500)) ∧
    recordGet (httpErrorLog exSpanCtx "GET" (normalize_route "/health") 500
        (1/10)) "duration_ms" =
      some (FieldValue.rat (pyRound2 ((1/10) * 1000))) :=
  completion_logging_behavior
    (exInp (HandlerOutcome.success { statusCode := 500, contentLength := 0 })
      noFaults)
    { statusCode := 500, contentLength := 0 } rfl rfl

/-- Claim C3 counterexample: with a handler that returns a 200 response
but a traffic-counter increment that raises, the middleware does not
return the handler's response — the sink exception escapes to the caller
instead of being absorbed. -/
theorem sink_failure_not_absorbed_cex :
    (metrics_middleware
        (exInp (HandlerOutcome.success { statusCode := 200, contentLength := 0 })
          faultedTraffic)).result = Except.error exSinkExc ∧
    (metrics_middleware
        (exInp (HandlerOutcome.success { statusCode := 200, contentLength := 0 })
          faultedTraffic)).result ≠
      Except.ok { statusCode := 200, contentLength := 0 } := by
  decide

/-- Claim C3 as amended: a failure raised by any observability sink inside
the try block after the handler has returned — the span attribute writes,
the traffic-counter increment, the histogram observation, the info log,
or on an error status the error-counter increment or error log — is not
absorbed: whichever sink raises first, the middleware's generic exception
handler catches its exception, counts it as an application error with
component "middleware", emits the `request_failed` error log for it as
the final log record, and re-raises it, so the caller does not receive
the handler's response; only the gauge balance is still guaranteed. -/
theorem sink_failure_reraised (inp : MWInput) (r : Response) (f : Exc)
    (ho : inp.outcome = HandlerOutcome.success r)
    (hf : firstFault inp.faults r.statusCode = some f) :
    (metrics_middleware inp).result = Except.error f ∧
    (metrics_middleware inp).result ≠ Except.ok r ∧
    (metrics_middleware inp).appErrIncs = [(f.typeName, "middleware")] ∧
    (metrics_middleware inp).logs.getLast? =
      some (requestFailedLog inp.spanCtx inp.method (normalize_route inp.path) f) ∧
    recordGet (requestFailedLog inp.spanCtx inp.method (normalize_route inp.path) f)
      "level" = some (FieldValue.str "ERROR") ∧
    recordGet (requestFailedLog inp.spanCtx inp.method (normalize_route inp.path) f)
      "error_type" = some (FieldValue.str f.typeName) ∧
    (metrics_middleware inp).gaugeIncs = 1 ∧
    (metrics_middleware inp).gaugeDecs = 1 := by
  cases hsa : inp.faults.spanAttr with
  | some g =>
      have hg : g = f := by
        simp [firstFault, hsa] at hf
        exact hf
      subst hg
      refine ⟨?_, ?_, ?_, ?_, rfl, rfl, ?_, ?_⟩ <;>
        simp [metrics_middleware, tryBlock, ho, hsa, List.getLast?_concat]
  | none =>
    cases hti : inp.faults.trafficInc with
    | some g =>
        have hg : g = f := by
          simp [firstFault, hsa, hti] at hf
          exact hf
        subst hg
        refine ⟨?_, ?_, ?_, ?_, rfl, rfl, ?_, ?_⟩ <;>
          simp [metrics_middleware, tryBlock, ho, hsa, hti, List.getLast?_concat]
    | none =>
      cases hho : inp.faults.histObserve with
      | some g =>
          have hg : g = f := by
            simp [firstFault, hsa, hti, hho] at hf
            exact hf
          subst hg
          refine ⟨?_, ?_, ?_, ?_, rfl, rfl, ?_, ?_⟩ <;>
            simp [metrics_middleware, tryBlock, ho, hsa, hti, hho,
              List.getLast?_concat]
      | none =>
        cases hil : inp.faults.infoLog with
        | some g =>
            have hg : g = f := by
              simp [firstFault, hsa, hti, hho, hil] at hf
              exact hf
            subst hg
            refine ⟨?_, ?_, ?_, ?_, rfl, rfl, ?_, ?_⟩ <;>
              simp [metrics_middleware, tryBlock, ho, hsa, hti, hho, hil,
                List.getLast?_concat]
        | none =>
          by_cases h4 : 400 ≤ r.statusCode
          · cases hei : inp.faults.errInc with
            | some g =>
                have hg : g = f := by
                  simp [firstFault, hsa, hti, hho, hil, h4, hei] at hf
                  exact hf
                subst hg
                refine ⟨?_, ?_, ?_, ?_, rfl, rfl, ?_, ?_⟩ <;>
                  simp [metrics_middleware, tryBlock, ho, hsa, hti, hho, hil,
                    h4, hei, List.getLast?_concat]
            | none =>
                have hg : inp.faults.errLog = some f := by
                  simpa [firstFault, hsa, hti, hho, hil, h4, hei] using hf
                refine ⟨?_, ?_, ?_, ?_, rfl, rfl, ?_, ?_⟩ <;>
                  simp [metrics_middleware, tryBlock, ho, hsa, hti, hho, hil,
                    h4, hei, hg, List.getLast?_concat]
          · exact absurd hf (by simp [firstFault, hsa, hti, hho, hil, h4])

/-- Claim C3 amended witness: the re-raise evaluated at the concrete
faulted request whose traffic-counter increment raises. -/
theorem sink_failure_reraised_witness :
    (metrics_middleware
        (exInp (HandlerOutcome.success { statusCode := 200, contentLength := 0 })
          faultedTraffic)).result = Except.error exSinkExc ∧
    (metrics_middleware
        (exInp (HandlerOutcome.success { statusCode := 200, contentLength := 0 })
          faultedTraffic)).result ≠
      Except.ok { statusCode := 200, contentLength := 0 } ∧
    (metrics_middleware
        (exInp (HandlerOutcome.success { statusCode := 200, contentLength := 0 })
          faultedTraffic)).appErrIncs = [(exSinkExc.typeName, "middleware")] ∧
    (metrics_middleware
        (exInp (HandlerOutcome.success { statusCode := 200, contentLength := 0 })
          faultedTraffic)).logs.getLast? =
      some (requestFailedLog exSpanCtx "GET" (normalize_route "/health")
        exSinkExc) ∧
    recordGet (requestFailedLog exSpanCtx "GET" (normalize_route "/health")
        exSinkExc) "level" = some (FieldValue.str "ERROR") ∧
    recordGet (requestFailedLog exSpanCtx "GET" (normalize_route "/health")
        exSinkExc) "error_type" = some (FieldValue.str exSinkExc.typeName) ∧
    (metrics_middleware
        (exInp (HandlerOutcome.success { statusCode := 200, contentLength := 0 })
          faultedTraffic)).gaugeIncs = 1 ∧
    (metrics_middleware
        (exInp (HandlerOutcome.success { statusCode := 200, contentLength := 0 })
          faultedTraffic)).gaugeDecs = 1 :=
  sink_failure_reraised
    (exInp (HandlerOutcome.success { statusCode := 200, contentLength := 0 })
      faultedTraffic)
    { statusCode := 200, contentLength := 0 } exSinkExc rfl rfl

/-- Claim C7: every record emitted through the structured logger carries
the fields message, level, trace_id and span_id plus all caller-supplied
key/value fields; under a valid active span the trace_id is a fixed-width
32-character lowercase hex string and the span_id a fixed-width
16-character lowercase hex string, and under no valid span both are null.
As at every call site in main.py, the caller does not override message or
level, and any trace_id or span_id it supplies carries exactly the value
the logger itself computes from the active span (the middleware and the
diagnostic endpoints pass the ids of the span they opened, which is the
active span while they run), so the dict-literal override of those keys
by kwargs leaves the record's correlation fields intact. -/
theorem structured_log_record_shape (level : String) (ctx : SpanContext)
    (msg : String) (kwargs : List (String × FieldValue))
    (hstd : ∀ p ∈ kwargs, p.1 ≠ "message" ∧ p.1 ≠ "level")
    (htid : ∀ p ∈ kwargs, p.1 = "trace_id" → p.2 = optStr (spanTraceIdStr ctx))
    (hsid : ∀ p ∈ kwargs, p.1 = "span_id" → p.2 = optStr (spanSpanIdStr ctx)) :
    recordGet (StructuredLogger.log level ctx msg kwargs) "message" =
      some (FieldValue.str msg) ∧
    recordGet (StructuredLogger.log level ctx msg kwargs) "level" =
      some (FieldValue.str level) ∧
    (∀ p ∈ kwargs, p ∈ StructuredLogger.log level ctx msg kwargs) ∧
    (ctx.isValid = true → ctx.traceId < 16 ^ 32 → ctx.spanId < 16 ^ 16 →
      ∃ s t,
        recordGet (StructuredLogger.log level ctx msg kwargs) "trace_id" =
          some (FieldValue.str s) ∧
        s.length = 32 ∧ s.data.all isHexLower = true ∧
        recordGet (StructuredLogger.log level ctx msg kwargs) "span_id" =
          some (FieldValue.str t) ∧
        t.length = 16 ∧ t.data.all isHexLower = true) ∧
    (ctx.isValid = false →
      recordGet (StructuredLogger.log level ctx msg kwargs) "trace_id" =
        some FieldValue.nullV ∧
      recordGet (StructuredLogger.log level ctx msg kwargs) "span_id" =
        some FieldValue.nullV) := by
  have hbase : StructuredLogger.log level ctx msg kwargs =
      ([("message", FieldValue.str msg), ("level", FieldValue.str level),
        ("trace_id", optStr (spanTraceIdStr ctx)),
        ("span_id", optStr (spanSpanIdStr ctx))] : LogRecord) ++ kwargs := rfl
  have htrace : recordGet (StructuredLogger.log level ctx msg kwargs)
      "trace_id" = some (optStr (spanTraceIdStr ctx)) := by
    rw [hbase]
    exact recordGet_append_agree _ _ _ _ rfl htid
  have hspan : recordGet (StructuredLogger.log level ctx msg kwargs)
      "span_id" = some (optStr (spanSpanIdStr ctx)) := by
    rw [hbase]
    exact recordGet_append_agree _ _ _ _ rfl hsid
  refine ⟨?_, ?_, ?_, ?_, ?_⟩
  · rw [hbase]
    exact recordGet_append_agree _ _ _ _ rfl
      (fun p hp hk => absurd hk (hstd p hp).1)
  · rw [hbase]
    exact recordGet_append_agree _ _ _ _ rfl
      (fun p hp hk => absurd hk (hstd p hp).2)
  · intro p hp
    rw [hbase]
    exact List.mem_append_right _ hp
  · intro hv ht hs
    refine ⟨pyHex ctx.traceId 32, pyHex ctx.spanId 16, ?_, ?_, ?_, ?_, ?_, ?_⟩
    · rw [htrace]
      simp [spanTraceIdStr, hv, optStr]
    · exact pyHex_length _ _ (by norm_num) ht
    · exact pyHex_all_hex _ _
    · rw [hspan]
      simp [spanSpanIdStr, hv, optStr]
    · exact pyHex_length _ _ (by norm_num) hs
    · exact pyHex_all_hex _ _
  · intro hv
    constructor
    · rw [htrace]
      simp [spanTraceIdStr, hv, optStr]
    · rw [hspan]
      simp [spanSpanIdStr, hv, optStr]

/-- Claim C7 witness: the record shape evaluated at the middleware's own
`request_processed` record — `exMwKwargs` is exactly the keyword list of
main.py lines 173-182 at concrete values, trace_id and span_id included,
and the first conjunct checks it reproduces the middleware's info log. -/
theorem structured_log_record_shape_witness :
    StructuredLogger.log "INFO" exSpanCtx "request_processed" exMwKwargs =
      requestLog exSpanCtx "GET" (normalize_route "/health") 200 (1/10) ∧
    (recordGet (StructuredLogger.log "INFO" exSpanCtx "request_processed"
        exMwKwargs) "message" = some (FieldValue.str "request_processed") ∧
    recordGet (StructuredLogger.log "INFO" exSpanCtx "request_processed"
        exMwKwargs) "level" = some (FieldValue.str "INFO") ∧
    (∀ p ∈ exMwKwargs, p ∈ StructuredLogger.log "INFO" exSpanCtx
        "request_processed" exMwKwargs) ∧
    (exSpanCtx.isValid = true → exSpanCtx.traceId < 16 ^ 32 →
      exSpanCtx.spanId < 16 ^ 16 →
      ∃ s t,
        recordGet (StructuredLogger.log "INFO" exSpanCtx "request_processed"
            exMwKwargs) "trace_id" = some (FieldValue.str s) ∧
        s.length = 32 ∧ s.data.all isHexLower = true ∧
        recordGet (StructuredLogger.log "INFO" exSpanCtx "request_processed"
            exMwKwargs) "span_id" = some (FieldValue.str t) ∧
        t.length = 16 ∧ t.data.all isHexLower = true) ∧
    (exSpanCtx.isValid = false →
      recordGet (StructuredLogger.log "INFO" exSpanCtx "request_processed"
          exMwKwargs) "trace_id" = some FieldValue.nullV ∧
      recordGet (StructuredLogger.log "INFO" exSpanCtx "request_processed"
          exMwKwargs) "span_id" = some FieldValue.nullV)) :=
  ⟨rfl, structured_log_record_shape "INFO" exSpanCtx "request_processed"
    exMwKwargs (by decide) (by decide) (by decide)⟩

/-- Claim C8: the route normalizer is a pure total function whose output
always belongs to the fixed finite set of route labels, for any input
path including the empty and malformed ones; unrecognized paths map to
the catch-all label rather than being returned raw. -/
theorem normalize_route_total (p : String) : normalize_route p ∈ routeLabels := by
  unfold normalize_route routeLabels
  split_ifs <;> try simp
  split
  · split_ifs <;> simp
  · simp

/-- Claim C9: the error classifier is a total deterministic function on
integer status codes: its output always lies in the fixed set of classes,
and it returns the invalid fallback class exactly for codes outside the
legal range 100-599. -/
theorem get_error_class_total (s : Int) :
    get_error_class s ∈ errorClasses ∧
    ((s < 100 ∨ 599 < s) ↔ get_error_class s = "invalid") := by
  unfold get_error_class errorClasses
  split_ifs with h1 h2 h3 <;>
    exact ⟨by simp, by
      constructor <;> intro h <;>
        first
          | rfl
          | exact absurd h (by omega)
          | exact absurd h (by decide)
          | omega⟩

end RecordsStore
